import Mathlib

/-!
Verification development for the pepdbagent data-access layer.

The relational tables are embedded as Lean lists of rows, and each accessor
method of the source (`pepdbagent/modules/annotation.py`, `namespace.py`,
`schema.py`, `view.py`, `user.py`) is translated into a pure function over
that state.  SQL semantics are made explicit:

* `col ILIKE '%s%'` is case-insensitive substring containment;
* `Result.first()` is `List.find?` (returning `none` on an empty result);
* `LIMIT l OFFSET o` is `(·.drop o).take l`;
* a comparison of a column against SQL `NULL` is never true;
* Python truthiness of an optional string argument (`if namespace:`) is
  "present and non-empty".

Raised exceptions are modelled with `Except` / an error component, with one
constructor per exception class that the source can raise (including the
Python `TypeError` and SQLAlchemy `NoResultFound` that escape from the code
paths that never reach their intended domain errors).
-/

set_option autoImplicit false

namespace PepDb

/-! ## Case-insensitive substring matching (SQL ILIKE with a `%…%` pattern) -/

/-- ASCII lowercasing of one character (the case folding ILIKE applies). -/
def lowChar (c : Char) : Char :=
  if 65 ≤ c.toNat && c.toNat ≤ 90 then Char.ofNat (c.toNat + 32) else c

/-- Lowercase a character list. -/
def lowerList (l : List Char) : List Char :=
  l.map lowChar

/-- `leadMatch pat hay` holds when `pat` occurs at the very beginning of `hay`. -/
def leadMatch : List Char → List Char → Bool
  | [], _ => true
  | _ :: _, [] => false
  | a :: as, b :: bs => a == b && leadMatch as bs

/-- `occursIn pat hay` holds when `pat` occurs contiguously somewhere in `hay`. -/
def occursIn (pat : List Char) : List Char → Bool
  | [] => leadMatch pat []
  | c :: rest => leadMatch pat (c :: rest) || occursIn pat rest

/-- Models the SQL predicate `col ILIKE '%search%'` produced by
`sql_search_str = f"%\x7bsearch_str\x7d%"`: the search string occurs in the
column value, compared case-insensitively. -/
def ilikeContains (col search : String) : Bool :=
  occursIn (lowerList search.toList) (lowerList col.toList)

/-- `ILIKE` applied to a nullable column: SQL `NULL ILIKE p` is not true,
so a row with a missing value never passes the filter. -/
def descIlike : Option String → String → Bool
  | none, _ => false
  | some d, p => ilikeContains d p

/-! ## Error taxonomy

One constructor per exception class observable from the translated code. -/

inductive PepError where
  /-- `pepdbagent.exceptions.ProjectNotFoundError` -/
  | projectNotFound
  /-- `pepdbagent.exceptions.RegistryPathError` -/
  | registryPathError
  /-- Python `TypeError` (e.g. `len(None)`) -/
  | typeError
  /-- `pepdbagent.exceptions.SchemaAlreadyExistsError` -/
  | schemaAlreadyExists
  /-- `pepdbagent.exceptions.SchemaDoesNotExistError` -/
  | schemaDoesNotExist
  /-- `pepdbagent.exceptions.SchemaGroupAlreadyExistsError` -/
  | schemaGroupAlreadyExists
  /-- `pepdbagent.exceptions.SchemaGroupDoesNotExistError` -/
  | schemaGroupDoesNotExist
  /-- `pepdbagent.exceptions.ViewNotFoundError` -/
  | viewNotFound
  /-- `pepdbagent.exceptions.SampleAlreadyInView` -/
  | sampleAlreadyInView
  /-- Python `ValueError` (missing project/sample reference in view code) -/
  | valueError
  /-- `sqlalchemy.exc.NoResultFound` raised by `Result.one()` on zero rows -/
  | noResultFound
  /-- `sqlalchemy.exc.MultipleResultsFound` raised by `Result.one()` on several rows -/
  | multipleResultsFound
  /-- `sqlalchemy.exc.IntegrityError` escaping untranslated -/
  | integrityError
  /-- `pepdbagent.exceptions.ProjectNotInFavorites` -/
  | projectNotInFavorites
deriving DecidableEq, Repr

instance {ε α : Type} [DecidableEq ε] [DecidableEq α] : DecidableEq (Except ε α) := fun x y =>
  match x, y with
  | Except.ok a, Except.ok b => decidable_of_iff (a = b) (by simp)
  | Except.ok _, Except.error _ => isFalse (by simp)
  | Except.error _, Except.ok _ => isFalse (by simp)
  | Except.error e, Except.error f => decidable_of_iff (e = f) (by simp)

/-! ## The `projects` table -/

/-- One row of the `projects` table (`pepdbagent.db_utils.Projects`).
`nsp` models the `namespace` column (a Lean keyword), `is_private` the
`private` column, and `description` the nullable
`project_value["description"]` JSON field read through `.astext`. -/
structure ProjectRow where
  id : Nat
  nsp : String
  name : String
  tag : String
  is_private : Bool
  description : Option String
  number_of_samples : Nat
  submission_date : String
  last_update_date : String
  digest : String
deriving DecidableEq, Repr

/-- The response record built by the annotation module (`AnnotationModel` in
`pepdbagent/models.py`; that file is present only in an older revision under
`src/`, so the field set is the one the translated constructors populate). -/
structure AnnotModel where
  nsp : String
  name : String
  tag : String
  is_private : Bool
  description : Option String
  number_of_samples : Nat
  submission_date : String
  last_update_date : String
  digest : String
deriving DecidableEq, Repr

/-- Row-to-model projection shared by `_get_single_annotation`,
`_get_projects` and `user.get_favorites`. -/
def rowToAnnot (r : ProjectRow) : AnnotModel :=
  { nsp := r.nsp
    name := r.name
    tag := r.tag
    is_private := r.is_private
    description := r.description
    number_of_samples := r.number_of_samples
    submission_date := r.submission_date
    last_update_date := r.last_update_date
    digest := r.digest }

/-- The paginated response wrapper (`AnnotationList`): `count`, `limit`,
`offset`, `results`. -/
structure AnnotList where
  count : Nat
  limit : Nat
  offset : Nat
  results : List AnnotModel
deriving DecidableEq, Repr

/-! ## Annotation module (`pepdbagent/modules/annotation.py`) -/

/-- Python truthiness of an optional string parameter: `if namespace:` runs
the branch only when the value is present and non-empty. -/
def optTruthy : Option String → Bool
  | none => false
  | some s => s != ""

/-- The SQL comparison `Projects.namespace == namespace` where the right-hand
side may be Python `None`: comparing against `NULL` is never true. -/
def nsEq : Option String → String → Bool
  | none, _ => false
  | some v, x => x == v

/-- The visibility clause attached to every project listing/count statement:
`or_(Projects.private.is_(False), Projects.namespace.in_(admin))`. -/
def visibleP (admin : List String) (r : ProjectRow) : Bool :=
  r.is_private == false || admin.contains r.nsp

/-- `PEPDatabaseAnnotation.get_project_number_in_namespace`: number of rows of
the target namespace that pass the visibility clause. -/
def get_project_number_in_namespace (db : List ProjectRow) (nsp : Option String)
    (admin : List String) : Nat :=
  db.countP (fun r => nsEq nsp r.nsp && visibleP admin r)

/-- The `search_query` expression built identically by `_count_projects` and
`_get_projects` for a truthy `search_str`: the name is matched twice (the
source repeats `Projects.name.ilike`), and the description match is added
only when `get_project_number_in_namespace(namespace, admin) < 1000`. -/
def projectSearchCond (db : List ProjectRow) (nsp : Option String)
    (admin : List String) (searchStr : String) (r : ProjectRow) : Bool :=
  (ilikeContains r.name searchStr || ilikeContains r.name searchStr)
  || (if get_project_number_in_namespace db nsp admin < 1000 then
        descIlike r.description searchStr
      else false)

/-- The `if search_str:` guard around the search clause. -/
def searchApplied (db : List ProjectRow) (nsp : Option String)
    (admin : List String) : Option String → ProjectRow → Bool
  | none, _ => true
  | some s, r => if s == "" then true else projectSearchCond db nsp admin s r

/-- The `if namespace:` guard around the namespace clause. -/
def nsApplied : Option String → ProjectRow → Bool
  | none, _ => true
  | some s, r => if s == "" then true else r.nsp == s

/-- The full row filter shared (textually identical in the source) by
`_count_projects` and `_get_projects`: search clause, namespace clause and
visibility clause, each a `WHERE` conjunct. -/
def projectsFiltered (db : List ProjectRow) (nsp searchStr : Option String)
    (admin : List String) : List ProjectRow :=
  db.filter (fun r =>
    searchApplied db nsp admin searchStr r
    && (nsApplied nsp r && visibleP admin r))

/-- `PEPDatabaseAnnotation._count_projects`: `select(func.count())` over the
filtered rows. -/
def count_projects (db : List ProjectRow) (nsp searchStr : Option String)
    (admin : List String) : Nat :=
  (projectsFiltered db nsp searchStr admin).length

/-- `PEPDatabaseAnnotation._get_projects`: the same filter followed by
`LIMIT limit OFFSET offset` and the row-to-model projection. -/
def get_projects (db : List ProjectRow) (nsp searchStr : Option String)
    (admin : List String) (limit offset : Nat) : List AnnotModel :=
  ((((projectsFiltered db nsp searchStr admin).drop offset).take limit).map rowToAnnot)

/-- The list branch of `PEPDatabaseAnnotation.get` (no exact key given):
pairs `_count_projects` with `_get_projects` in one `AnnotationList`. -/
def annotation_get_list (db : List ProjectRow) (nsp searchStr : Option String)
    (admin : List String) (limit offset : Nat) : AnnotList :=
  { count := count_projects db nsp searchStr admin
    limit := limit
    offset := offset
    results := get_projects db nsp searchStr admin limit offset }

/-- `PEPDatabaseAnnotation._get_single_annotation`.  The statement selects the
row with the exact `(namespace, name, tag)` key that passes
`or_(Projects.namespace.in_(admin_tuple), Projects.private.is_(False))`;
`session.execute(query).first()` yields the first such row or `None`.
The source then evaluates `len(query_result)`: on a found row this is the
(positive) column count and the model is returned, but on `None` Python
raises `TypeError`, so the `ProjectNotFoundError` branch is unreachable. -/
def get_single_annot (db : List ProjectRow) (nsp name tag : String)
    (admin : List String) : Except PepError AnnotModel :=
  match db.find? (fun r =>
      r.name == name && (r.nsp == nsp && (r.tag == tag
        && (admin.contains r.nsp || r.is_private == false)))) with
  | some r => Except.ok (rowToAnnot r)
  | none => Except.error PepError.typeError

/-- Splitting a character list on a separator (the semantics of Python
`str.split` on a one-character separator); `acc` holds the reversed current
piece. -/
def splitOnChar (sep : Char) : List Char → List Char → List (List Char)
  | [], acc => [acc.reverse]
  | c :: rest, acc =>
    if c == sep then acc.reverse :: splitOnChar sep rest []
    else splitOnChar sep rest (c :: acc)

/-- Modelled from the spec: `registry_path_converter` lives in
`pepdbagent/utils.py`, which is absent from the examined sources.  The spec
defines a registry path as the string form `namespace/name:tag` identifying a
project (with `DEFAULT_TAG = "default"` when the tag part is omitted) and says
a malformed path raises a registry-path error. -/
def registry_path_converter (path : String) :
    Except PepError (String × String × String) :=
  match splitOnChar '/' path.toList [] with
  | [nspC, restC] =>
    if nspC.isEmpty then Except.error PepError.registryPathError
    else
      match splitOnChar ':' restC [] with
      | [nameC] =>
        if nameC.isEmpty then Except.error PepError.registryPathError
        else Except.ok (String.mk nspC, String.mk nameC, "default")
      | [nameC, tagC] =>
        if nameC.isEmpty || tagC.isEmpty then Except.error PepError.registryPathError
        else Except.ok (String.mk nspC, String.mk nameC, String.mk tagC)
      | _ => Except.error PepError.registryPathError
  | _ => Except.error PepError.registryPathError

/-- The per-path loop of `PEPDatabaseAnnotation.get_by_rp`: a
`RegistryPathError` from parsing is logged and the entry skipped; a
`ProjectNotFoundError` from the single lookup is swallowed by
`except ProjectNotFoundError: pass`; any other exception (in particular the
`TypeError` actually raised on a missing row) propagates and aborts the
whole batch. -/
def get_by_rp_loop (db : List ProjectRow) (admin : List String) :
    List String → Except PepError (List AnnotModel)
  | [] => Except.ok []
  | path :: rest =>
    match registry_path_converter path with
    | Except.error _ => get_by_rp_loop db admin rest
    | Except.ok (nsp, name, tag) =>
      match get_single_annot db nsp name tag admin with
      | Except.ok a => (get_by_rp_loop db admin rest).map (fun l => a :: l)
      | Except.error PepError.projectNotFound => get_by_rp_loop db admin rest
      | Except.error e => Except.error e

/-- `PEPDatabaseAnnotation.get_by_rp` on a list argument: resolve each path
independently, then report `count = len(results)`, `limit = len(paths)`,
`offset = 0`. -/
def get_by_rp (db : List ProjectRow) (paths : List String)
    (admin : List String) : Except PepError AnnotList :=
  match get_by_rp_loop db admin paths with
  | Except.error e => Except.error e
  | Except.ok results =>
    Except.ok { count := results.length, limit := paths.length, offset := 0
                results := results }

/-! ## Namespace module (`pepdbagent/modules/namespace.py`)

Namespaces are a derived aggregate: `_get_namespace` groups the filtered
project rows by namespace; `_count_namespace` counts the distinct namespaces
among the same filtered rows. -/

/-- The aggregate record (`models.Namespace`): key, project count, sample sum. -/
structure NamespaceResult where
  nsp : String
  number_of_projects : Nat
  number_of_samples : Nat
deriving DecidableEq, Repr

/-- The wrapper returned by `PEPDatabaseNamespace.get` (`models.NamespaceList`). -/
structure NamespaceList where
  count : Nat
  limit : Nat
  offset : Nat
  results : List NamespaceResult
deriving DecidableEq, Repr

/-- The row filter shared by `_get_namespace` and `_count_namespace`: the
`if search_str:` ILIKE clause on the namespace column, plus the visibility
clause `or_(Projects.private.is_(False), Projects.namespace.in_(admin_nsp))`. -/
def nsRowFilter (searchStr : String) (adminNsp : List String) (r : ProjectRow) : Bool :=
  (if searchStr == "" then true else ilikeContains r.nsp searchStr)
  && (r.is_private == false || adminNsp.contains r.nsp)

/-- First-occurrence deduplication, with `seen` accumulating emitted keys.
Models both SQL `GROUP BY namespace` (one output row per distinct key) and
`count(DISTINCT namespace)`. -/
def distinctAux (seen : List String) : List String → List String
  | [] => []
  | x :: xs => if seen.contains x then distinctAux seen xs
               else x :: distinctAux (x :: seen) xs

/-- Distinct keys of a list in order of first appearance. -/
def distinctKeys (l : List String) : List String :=
  distinctAux [] l

/-- `PEPDatabaseNamespace._get_namespace`: filter, group by namespace with
`count(name)` and `sum(number_of_samples)` per group, then
`LIMIT limit OFFSET offset` over the group rows. -/
def get_namespace (db : List ProjectRow) (searchStr : String)
    (adminNsp : List String) (limit offset : Nat) : List NamespaceResult :=
  let rows := db.filter (nsRowFilter searchStr adminNsp)
  let keys := distinctKeys (rows.map (fun r => r.nsp))
  (((keys.map (fun k =>
      let grp := rows.filter (fun r => r.nsp == k)
      { nsp := k
        number_of_projects := grp.length
        number_of_samples := (grp.map (fun r => r.number_of_samples)).sum
        : NamespaceResult })).drop offset).take limit)

/-- `PEPDatabaseNamespace._count_namespace`:
`count(DISTINCT namespace)` over the same filtered rows. -/
def count_namespace (db : List ProjectRow) (searchStr : String)
    (adminNsp : List String) : Nat :=
  (distinctKeys ((db.filter (nsRowFilter searchStr adminNsp)).map (fun r => r.nsp))).length

/-- `PEPDatabaseNamespace.get`: pairs the count and fetch paths. -/
def namespace_get (db : List ProjectRow) (query : String)
    (adminNsp : List String) (limit offset : Nat) : NamespaceList :=
  { count := count_namespace db query adminNsp
    limit := limit
    offset := offset
    results := get_namespace db query adminNsp limit offset }

/-! ## Schema module (`pepdbagent/modules/schema.py`)

The stored JSON document is opaque to the source (written and read back
verbatim), so the embedding is parametric in the payload type `J`. -/

/-- One row of the `schemas` table. -/
structure SchemaRow (J : Type) where
  nsp : String
  name : String
  schema_json : J
  description : String
deriving DecidableEq, Repr

/-- One row of the `schema_groups` table. -/
structure SchemaGroupRow where
  nsp : String
  name : String
  description : String
deriving DecidableEq, Repr

/-- The two tables the schema module touches. -/
structure SchemaDB (J : Type) where
  schemas : List (SchemaRow J)
  groups : List SchemaGroupRow
deriving DecidableEq, Repr

/-- The annotation record built by schema search
(namespace, name, description; the date columns are omitted here). -/
structure SchemaAnnot where
  nsp : String
  name : String
  description : String
deriving DecidableEq, Repr

/-- The group annotation record built by group search (the `schemas` member
list is always `[]` on this path in the source). -/
structure SchemaGroupAnnot where
  nsp : String
  name : String
  description : String
deriving DecidableEq, Repr

/-- `SchemaSearchResult`: count, limit, offset, results. -/
structure SchemaSearchResult where
  count : Nat
  limit : Nat
  offset : Nat
  results : List SchemaAnnot
deriving DecidableEq, Repr

/-- `SchemaGroupSearchResult`: count, limit, offset, results. -/
structure SchemaGroupSearchResult where
  count : Nat
  limit : Nat
  offset : Nat
  results : List SchemaGroupAnnot
deriving DecidableEq, Repr

variable {J : Type}

/-- `session.scalar(select(Schemas).where(namespace == …, name == …))`:
first row with the exact key, if any. -/
def schemaFind? (db : List (SchemaRow J)) (nsp name : String) : Option (SchemaRow J) :=
  db.find? (fun s => s.nsp == nsp && s.name == name)

/-- `PEPDatabaseSchemas.exist`. -/
def schema_exist (db : List (SchemaRow J)) (nsp name : String) : Bool :=
  (schemaFind? db nsp name).isSome

/-- `PEPDatabaseSchemas.get`: the stored JSON document, or
`SchemaDoesNotExistError`. -/
def schema_get (db : List (SchemaRow J)) (nsp name : String) : Except PepError J :=
  match schemaFind? db nsp name with
  | some s => Except.ok s.schema_json
  | none => Except.error PepError.schemaDoesNotExist

/-- In-place mutation of the first row with the given key
(`schema_obj.schema_json = schema; schema_obj.description = description`). -/
def updateFirst (db : List (SchemaRow J)) (nsp name : String)
    (schema : J) (descr : String) : List (SchemaRow J) :=
  match db with
  | [] => []
  | s :: rest =>
    if s.nsp == nsp && s.name == name then
      { s with schema_json := schema, description := descr } :: rest
    else s :: updateFirst rest nsp name schema descr

/-- `PEPDatabaseSchemas.update`: mutate the found row or fail with
`SchemaDoesNotExistError`. -/
def schema_update (db : List (SchemaRow J)) (nsp name : String)
    (schema : J) (descr : String) : Except PepError (List (SchemaRow J)) :=
  match schemaFind? db nsp name with
  | none => Except.error PepError.schemaDoesNotExist
  | some _ => Except.ok (updateFirst db nsp name schema descr)

/-- `PEPDatabaseSchemas.create`: on an existing key, `overwrite` or
`update_only` delegate to `update`, otherwise `SchemaAlreadyExistsError`;
on a fresh key, `update_only` fails with `SchemaDoesNotExistError`,
otherwise the new row is inserted. -/
def schema_create (db : List (SchemaRow J)) (nsp name : String) (schema : J)
    (descr : String) (overwrite update_only : Bool) :
    Except PepError (List (SchemaRow J)) :=
  if schema_exist db nsp name then
    if overwrite then schema_update db nsp name schema descr
    else if update_only then schema_update db nsp name schema descr
    else Except.error PepError.schemaAlreadyExists
  else if update_only then Except.error PepError.schemaDoesNotExist
  else Except.ok (db ++ [{ nsp := nsp, name := name, schema_json := schema
                           description := descr }])

/-- Removal of the first row with the given key (`session.delete(schema_obj)`). -/
def removeFirst (db : List (SchemaRow J)) (nsp name : String) : List (SchemaRow J) :=
  match db with
  | [] => []
  | s :: rest =>
    if s.nsp == nsp && s.name == name then rest
    else s :: removeFirst rest nsp name

/-- `PEPDatabaseSchemas.delete`: delete the found row or fail with
`SchemaDoesNotExistError`. -/
def schema_delete (db : List (SchemaRow J)) (nsp name : String) :
    Except PepError (List (SchemaRow J)) :=
  match schemaFind? db nsp name with
  | none => Except.error PepError.schemaDoesNotExist
  | some _ => Except.ok (removeFirst db nsp name)

/-- The schema-side condition added by `PEPDatabaseSchemas._add_condition`:
`if search_str:` an ILIKE match on `Schemas.name` or `Schemas.description`;
`if namespace:` equality on `Schemas.namespace`. -/
def schemaCond (nsp : Option String) (searchStr : String) (s : SchemaRow J) : Bool :=
  (if searchStr == "" then true
   else ilikeContains s.name searchStr || ilikeContains s.description searchStr)
  && (match nsp with
      | none => true
      | some v => if v == "" then true else s.nsp == v)

/-- `PEPDatabaseSchemas._count_search`: `count(Schemas.id)` under
`_add_condition`. -/
def schema_count_search (db : SchemaDB J) (nsp : Option String)
    (searchStr : String) : Nat :=
  (db.schemas.filter (schemaCond nsp searchStr)).length

/-- `PEPDatabaseSchemas.search`: fetch under `_add_condition` with
`LIMIT limit OFFSET offset`, paired with `_count_search`. -/
def schema_search (db : SchemaDB J) (nsp : Option String) (searchStr : String)
    (limit offset : Nat) : SchemaSearchResult :=
  { count := schema_count_search db nsp searchStr
    limit := limit
    offset := offset
    results := (((db.schemas.filter (schemaCond nsp searchStr)).drop offset).take limit).map
      (fun s => { nsp := s.nsp, name := s.name, description := s.description }) }

/-- The group-side condition added by `PEPDatabaseSchemas._add_group_condition`
(same shape as `_add_condition` but over the `SchemaGroups` columns). -/
def groupCond (nsp : Option String) (searchStr : String) (g : SchemaGroupRow) : Bool :=
  (if searchStr == "" then true
   else ilikeContains g.name searchStr || ilikeContains g.description searchStr)
  && (match nsp with
      | none => true
      | some v => if v == "" then true else g.nsp == v)

/-- `PEPDatabaseSchemas._group_search_count`.  The statement is
`select(func.count(SchemaGroups.id))`, but the conditions are added by
`_add_condition`, which references the `Schemas` columns.  When any condition
is attached, the rendered SQL therefore selects from the cross join of
`schema_groups` and `schemas`, and the count is the number of pairs:
`len(groups) * len(schemas passing the schema-side condition)`.  With no
truthy condition the statement references only `schema_groups` and counts its
rows. -/
def group_search_count (db : SchemaDB J) (nsp : Option String)
    (searchStr : String) : Nat :=
  if searchStr != "" || optTruthy nsp then
    db.groups.length * (db.schemas.filter (schemaCond nsp searchStr)).length
  else
    db.groups.length

/-- The fetch path of `PEPDatabaseSchemas.group_search`: groups filtered by
`_add_group_condition`.  The source never applies `limit`/`offset` to this
statement; they are only echoed in the result wrapper. -/
def group_search_fetch (db : SchemaDB J) (nsp : Option String)
    (searchStr : String) : List SchemaGroupAnnot :=
  (db.groups.filter (groupCond nsp searchStr)).map
    (fun g => { nsp := g.nsp, name := g.name, description := g.description })

/-- `PEPDatabaseSchemas.group_search`: pairs `_group_search_count` with the
fetch path. -/
def group_search (db : SchemaDB J) (nsp : Option String) (searchStr : String)
    (limit offset : Nat) : SchemaGroupSearchResult :=
  { count := group_search_count db nsp searchStr
    limit := limit
    offset := offset
    results := group_search_fetch db nsp searchStr }

/-- `session.scalar` lookup of a schema group by exact key. -/
def groupFind? (db : SchemaDB J) (nsp name : String) : Option SchemaGroupRow :=
  db.groups.find? (fun g => g.nsp == nsp && g.name == name)

/-- `PEPDatabaseSchemas.group_exist`. -/
def group_exist (db : SchemaDB J) (nsp name : String) : Bool :=
  (groupFind? db nsp name).isSome

/-- `PEPDatabaseSchemas.group_delete`.  The source guard is
`if self.group_exist(namespace, name): raise SchemaGroupDoesNotExistError(…)`:
it raises precisely when the group exists, and otherwise runs the `DELETE`
statement (which then matches no rows) and commits. -/
def group_delete (db : SchemaDB J) (nsp name : String) :
    Except PepError (SchemaDB J) :=
  if group_exist db nsp name then
    Except.error PepError.schemaGroupDoesNotExist
  else
    Except.ok
      { db with groups := db.groups.filter (fun g => !(g.nsp == nsp && g.name == name)) }

/-! ## View module (`pepdbagent/modules/view.py`) -/

/-- One row of the `samples` table (the columns the view module reads). -/
structure SampleRow where
  id : Nat
  project_id : Nat
  sample_name : String
deriving DecidableEq, Repr

/-- One row of the `views` table (the columns the view module reads). -/
structure ViewRow where
  id : Nat
  project_id : Nat
  name : String
deriving DecidableEq, Repr

/-- The tables the view module touches.  `associations` is the
`ViewSampleAssociation` entity as `(sample_id, view_id)` pairs. -/
structure ViewDB where
  projects : List ProjectRow
  samples : List SampleRow
  views : List ViewRow
  associations : List (Nat × Nat)
deriving DecidableEq, Repr

/-- `session.scalar` of the view statement used throughout the module:
first view whose name matches and whose project (via
`Views.project_mapping.has(namespace=…, name=…, tag=…)`) has the given key. -/
def viewFind? (db : ViewDB) (nsp name tag view_name : String) : Option ViewRow :=
  db.views.find? (fun v =>
    (match db.projects.find? (fun p => p.id == v.project_id) with
     | some p => p.nsp == nsp && (p.name == name && p.tag == tag)
     | none => false)
    && v.name == view_name)

/-- Modelled from the spec: primary keys are assigned by the backing
relational engine (out of scope of the examined sources); a freshly inserted
row receives an identifier larger than every existing one. -/
def freshViewId (db : ViewDB) : Nat :=
  (db.views.map (fun v => v.id)).foldr Nat.max 0 + 1

/-- The sample loop of `PEPDatabaseView.create`.  For each requested name the
statement selects `Samples.id` for the parent project and calls
`Result.one()`: zero rows raise `NoResultFound` and several raise
`MultipleResultsFound`, so the `if not sample_id: raise ValueError(…)`
guard below the call is reachable only for a literal id `0`. -/
def view_create_loop (db : ViewDB) (projId vid : Nat) :
    List String → Except PepError (List (Nat × Nat))
  | [] => Except.ok []
  | nm :: rest =>
    match db.samples.filter (fun s => s.project_id == projId && s.sample_name == nm) with
    | [] => Except.error PepError.noResultFound
    | [s] =>
      if s.id == 0 then Except.error PepError.valueError
      else (view_create_loop db projId vid rest).map (fun l => (s.id, vid) :: l)
    | _ :: _ :: _ => Except.error PepError.multipleResultsFound

/-- `PEPDatabaseView.create`: resolve the parent project (else `ValueError`),
insert the view row, then run the sample loop; the session commits only when
the whole loop succeeds. -/
def view_create (db : ViewDB) (view_name : String)
    (p_nsp p_name p_tag : String) (sample_list : List String) :
    Except PepError ViewDB :=
  match db.projects.find? (fun p =>
      p.nsp == p_nsp && (p.name == p_name && p.tag == p_tag)) with
  | none => Except.error PepError.valueError
  | some project =>
    let vid := freshViewId db
    match view_create_loop db project.id vid sample_list with
    | Except.error e => Except.error e
    | Except.ok assocs =>
      Except.ok { db with
        views := db.views ++ [{ id := vid, project_id := project.id, name := view_name }]
        associations := db.associations ++ assocs }

/-- The per-sample loop of `PEPDatabaseView.add_sample`, committing after each
insertion.  A missing sample raises `ValueError`; inserting an association
that already exists violates the association entity's key and the resulting
`IntegrityError` is translated to `SampleAlreadyInView`.  (Modelled from the
spec: the uniqueness of a `(sample, view)` association pair is enforced by the
`ViewSampleAssociation` table declared in `pepdbagent/db_utils.py`, which is
absent from the examined sources; the spec calls the duplicate association a
duplicate-membership conflict surfaced as an integrity violation.)  Because
each iteration commits, insertions made before a failure persist. -/
def add_sample_loop (db : ViewDB) (projId vid : Nat) :
    List String → ViewDB × Option PepError
  | [] => (db, none)
  | nm :: rest =>
    match db.samples.find? (fun s => s.project_id == projId && s.sample_name == nm) with
    | none => (db, some PepError.valueError)
    | some s =>
      if db.associations.contains (s.id, vid) then
        (db, some PepError.sampleAlreadyInView)
      else
        add_sample_loop
          { db with associations := db.associations ++ [(s.id, vid)] } projId vid rest

/-- `PEPDatabaseView.add_sample`: resolve the view (else `ViewNotFoundError`),
then run the per-sample loop.  The returned state reflects the per-iteration
commits; the second component is the exception that aborted the loop, if any. -/
def add_sample (db : ViewDB) (nsp name tag view_name : String)
    (sample_names : List String) : ViewDB × Option PepError :=
  match viewFind? db nsp name tag view_name with
  | none => (db, some PepError.viewNotFound)
  | some v => add_sample_loop db v.project_id v.id sample_names

/-! ## User/favorites module (`pepdbagent/modules/user.py`) -/

/-- One row of the `users` table. -/
structure UserRow where
  id : Nat
  nsp : String
deriving DecidableEq, Repr

/-- The tables the user module touches.  `favorites` is the `Favorites`
entity as `(user_id, project_id)` pairs. -/
structure FavDB where
  projects : List ProjectRow
  users : List UserRow
  favorites : List (Nat × Nat)
deriving DecidableEq, Repr

/-- Modelled from the spec: `PEPDatabaseProject.get_project_id`
(`pepdbagent/modules/project.py`, absent from the examined sources) resolves
the `(namespace, name, tag)` key of a project to its internal identifier,
`None` when no such project exists. -/
def get_project_id (db : FavDB) (nsp name tag : String) : Option Nat :=
  (db.projects.find? (fun p =>
      p.nsp == nsp && (p.name == name && p.tag == tag))).map (fun p => p.id)

/-- `PEPDatabaseUser.get_user_id`: the id of the user row with the given
namespace, if one exists. -/
def get_user_id (db : FavDB) (nsp : String) : Option Nat :=
  (db.users.find? (fun u => u.nsp == nsp)).map (fun u => u.id)

/-- Modelled from the spec: the fresh primary key handed out by the backing
engine when `create_user` inserts a row — larger than every existing user id. -/
def freshUserId (db : FavDB) : Nat :=
  (db.users.map (fun u => u.id)).foldr Nat.max 0 + 1

/-- `PEPDatabaseUser.create_user`: insert a user row, returning the new id. -/
def create_user (db : FavDB) (nsp : String) : FavDB × Nat :=
  let uid := freshUserId db
  ({ db with users := db.users ++ [{ id := uid, nsp := nsp }] }, uid)

/-- `PEPDatabaseUser.add_to_favorites`: resolve the project and the user
(creating the user record on first use), then insert the favorites pair.
A missing project makes the insert violate the foreign key, surfacing the
backend's `IntegrityError`. -/
def add_to_favorites (db : FavDB) (nsp p_nsp p_name p_tag : String) :
    Except PepError FavDB :=
  match get_project_id db p_nsp p_name p_tag with
  | none => Except.error PepError.integrityError
  | some pid =>
    match get_user_id db nsp with
    | some uid => Except.ok { db with favorites := db.favorites ++ [(uid, pid)] }
    | none =>
      let p := create_user db nsp
      Except.ok { p.1 with favorites := p.1.favorites ++ [(p.2, pid)] }

/-- The `WHERE` predicate of the `DELETE` in `remove_from_favorites`:
`Favorites.user_id == user_id and Favorites.project_id == project_id`,
where either side may be Python `None` (a SQL `NULL` comparison, never true). -/
def favMatch (uid? pid? : Option Nat) (f : Nat × Nat) : Bool :=
  (match uid? with | some u => f.1 == u | none => false)
  && (match pid? with | some p => f.2 == p | none => false)

/-- `PEPDatabaseUser.remove_from_favorites`: delete every matching favorites
row; when `rowcount == 0` raise `ProjectNotInFavorites`. -/
def remove_from_favorites (db : FavDB) (nsp p_nsp p_name p_tag : String) :
    Except PepError FavDB :=
  let pid? := get_project_id db p_nsp p_name p_tag
  let uid? := get_user_id db nsp
  if db.favorites.countP (favMatch uid? pid?) == 0 then
    Except.error PepError.projectNotInFavorites
  else
    Except.ok { db with favorites := db.favorites.filter (fun f => !favMatch uid? pid? f) }

/-- `PEPDatabaseUser.exists`: whether any user row has the namespace. -/
def user_exists (db : FavDB) (nsp : String) : Bool :=
  (db.users.filter (fun u => u.nsp == nsp)).length > 0

/-- `PEPDatabaseUser.get_favorites`: for a namespace with no user record,
return the empty `AnnotationList(count=0, limit=0, offset=0, results=[])`
without touching the favorites; otherwise list the user's favorite projects
(each favorites row dereferenced to its project through the foreign key),
with `count` and `limit` both the number of favorites rows. -/
def get_favorites (db : FavDB) (nsp : String) : AnnotList :=
  if user_exists db nsp then
    match db.users.find? (fun u => u.nsp == nsp) with
    | none => { count := 0, limit := 0, offset := 0, results := [] }
    | some u =>
      let favs := db.favorites.filter (fun f => f.1 == u.id)
      { count := favs.length
        limit := favs.length
        offset := 0
        results := favs.filterMap (fun f =>
          (db.projects.find? (fun p => p.id == f.2)).map rowToAnnot) }
  else { count := 0, limit := 0, offset := 0, results := [] }

/-! ## Shared helper lemmas -/

theorem mem_distinctAux {seen l : List String} {x : String}
    (h : x ∈ distinctAux seen l) : x ∈ l := by
  induction l generalizing seen with
  | nil => simp [distinctAux] at h
  | cons a t ih =>
    rw [distinctAux] at h
    by_cases hc : seen.contains a
    · simp only [hc, if_pos] at h
      exact List.mem_cons_of_mem _ (ih h)
    · simp only [hc, if_neg, Bool.false_eq_true, not_false_iff] at h
      rcases List.mem_cons.mp h with rfl | h2
      · exact List.mem_cons_self _ _
      · exact List.mem_cons_of_mem _ (ih h2)

theorem mem_distinctKeys {l : List String} {x : String}
    (h : x ∈ distinctKeys l) : x ∈ l :=
  mem_distinctAux h

theorem le_foldr_max {a : Nat} {l : List Nat} (h : a ∈ l) :
    a ≤ l.foldr Nat.max 0 := by
  induction l with
  | nil => cases h
  | cons b t ih =>
    rcases List.mem_cons.mp h with rfl | h2
    · exact Nat.le_max_left _ _
    · exact le_trans (ih h2) (Nat.le_max_right _ _)

/-! ## Concrete fixtures for the closed evaluations -/

/-- A public project `a/b:tag1`. -/
def rowAB : ProjectRow :=
  { id := 1, nsp := "a", name := "b", tag := "tag1", is_private := false
    description := some "demo project", number_of_samples := 2
    submission_date := "2023-01-01", last_update_date := "2023-01-02", digest := "d0" }

/-- A private project `n/p:default` whose description mentions "hello". -/
def privN : ProjectRow :=
  { id := 2, nsp := "n", name := "p", tag := "default", is_private := true
    description := some "hello secret", number_of_samples := 0
    submission_date := "", last_update_date := "", digest := "" }

/-- A public project `n/x:default` whose description (but not name) mentions
"hello". -/
def pubN : ProjectRow :=
  { id := 3, nsp := "n", name := "x", tag := "default", is_private := false
    description := some "hello world", number_of_samples := 0
    submission_date := "", last_update_date := "", digest := "" }

/-- A namespace holding 1000 private projects and one public project: enough
rows for the admin set to move the visible project count across the
description-search threshold. -/
def bigDb : List ProjectRow :=
  List.replicate 1000 privN ++ [pubN]

/-- A schema group `a/x` with description `y`. -/
def groupAX : SchemaGroupRow := { nsp := "a", name := "x", description := "y" }

/-- A schema group `n/g`. -/
def groupNG : SchemaGroupRow := { nsp := "n", name := "g", description := "" }

/-- A schema `n/s` with payload `7`. -/
def schemaNS : SchemaRow Nat := { nsp := "n", name := "s", schema_json := 7, description := "" }

/-- View-module fixture: project `a/b:t` (id 1) with one sample `s1` (id 1)
and no views. -/
def viewDb0 : ViewDB :=
  { projects := [{ rowAB with tag := "t" }]
    samples := [{ id := 1, project_id := 1, sample_name := "s1" }]
    views := []
    associations := [] }

/-- The same fixture with a view `v` (id 1) over the project and no
associations yet. -/
def viewDb1 : ViewDB :=
  { viewDb0 with views := [{ id := 1, project_id := 1, name := "v" }] }

/-- `viewDb1` after sample `s1` has been associated with view `v`. -/
def viewDb2 : ViewDB :=
  { viewDb1 with associations := [(1, 1)] }

/-- User-module fixture: one project `a/b:t` (id 1), no users, no favorites. -/
def favDb0 : FavDB :=
  { projects := [{ rowAB with tag := "t" }], users := [], favorites := [] }

/-! ## Claim theorems -/

/-- C2: the claim that every paginated listing's count path and fetch path
apply identical filter predicates, making `count ≥ len(results)`, fails on
schema-group search: `_group_search_count` attaches its conditions with
`_add_condition`, which filters the `Schemas` table, while the fetch path
filters `SchemaGroups` via `_add_group_condition`.  On a database with one
matching schema group and no schemas, the count statement (a cross join with
an empty `schemas` table) yields 0 while the fetch returns one row, so
`count < len(results)`. -/
theorem group_search_count_mismatch :
    (group_search ({ schemas := [], groups := [groupAX] } : SchemaDB Nat)
        none "x" 100 0).count = 0
    ∧ ((group_search ({ schemas := [], groups := [groupAX] } : SchemaDB Nat)
        none "x" 100 0).results).length = 1 := by
  exact ⟨by decide, by decide⟩

/-- C3: the claim that the exact-key lookup fails with the not-found error
when no visible row matches is contradicted by the code: with no matching row
`session.execute(query).first()` returns `None`, and `len(query_result)`
raises `TypeError` before the `ProjectNotFoundError` branch can run — both
when the key is absent altogether and when the row exists but is private and
outside the admin set.  The success half (a visible matching row returns
exactly one annotation) does hold. -/
theorem single_lookup_no_match_type_error :
    get_single_annot [] "a" "b" "tag1" [] = Except.error PepError.typeError
    ∧ get_single_annot [privN] "n" "p" "default" [] = Except.error PepError.typeError
    ∧ get_single_annot [privN] "n" "p" "default" ["n"] = Except.ok (rowToAnnot privN)
    ∧ get_single_annot [rowAB] "a" "b" "tag1" [] = Except.ok (rowToAnnot rowAB) := by
  exact ⟨by decide, by decide, by decide, by decide⟩

/-- C4: batch lookup does skip malformed paths and resolve duplicate valid
entries — on a database where `a/b:tag1` exists and is visible, the input
`["a/b:tag1", "malformed", "a/b:tag1"]` returns exactly two results — but the
claim that entries whose project is not found are silently skipped fails: a
missing project makes `_get_single_annotation` raise `TypeError` (not the
caught `ProjectNotFoundError`), which propagates out of `get_by_rp` and
aborts the whole batch. -/
theorem batch_lookup_abort_on_missing :
    get_by_rp [rowAB] ["a/b:tag1", "malformed", "a/b:tag1"] []
      = Except.ok { count := 2, limit := 3, offset := 0
                    results := [rowToAnnot rowAB, rowToAnnot rowAB] }
    ∧ get_by_rp [] ["a/b:tag1"] [] = Except.error PepError.typeError := by
  exact ⟨by decide, by decide⟩

/-- C6: schema deletion behaves as claimed (errors on an absent key, removes
an existing row), but `group_delete`'s guard is inverted: it raises
`SchemaGroupDoesNotExistError` precisely when the group exists, and silently
succeeds (deleting nothing) when it does not. -/
theorem group_delete_inverted_guard :
    group_delete ({ schemas := [], groups := [groupNG] } : SchemaDB Nat) "n" "g"
      = Except.error PepError.schemaGroupDoesNotExist
    ∧ group_delete ({ schemas := [], groups := [] } : SchemaDB Nat) "n" "g"
      = Except.ok { schemas := [], groups := [] }
    ∧ schema_delete ([] : List (SchemaRow Nat)) "n" "s"
      = Except.error PepError.schemaDoesNotExist
    ∧ schema_delete [schemaNS] "n" "s" = Except.ok [] := by
  exact ⟨by decide, by decide, by decide, by decide⟩

/-- C8: adding a sample to a view succeeds the first time and fails with the
duplicate-association conflict the second time, as claimed; but creating a
view whose sample list names a sample absent from the parent project does not
fail with the invalid-reference `ValueError` — the `Result.one()` call raises
`sqlalchemy.exc.NoResultFound` first, leaving the `ValueError` branch
unreachable. -/
theorem view_create_missing_sample_no_result_found :
    view_create viewDb0 "v" "a" "b" "t" ["s2"] = Except.error PepError.noResultFound
    ∧ add_sample viewDb1 "a" "b" "t" "v" ["s1"] = (viewDb2, none)
    ∧ add_sample viewDb2 "a" "b" "t" "v" ["s1"]
        = (viewDb2, some PepError.sampleAlreadyInView) := by
  exact ⟨by decide, by decide, by decide⟩

/-- C10: fetching the favorites of a namespace with no user record does not
raise: it returns the empty list result with `count = 0`, `limit = 0`,
`offset = 0` and no entries. -/
theorem get_favorites_missing_user_empty (db : FavDB) (nsp : String)
    (h : user_exists db nsp = false) :
    get_favorites db nsp = { count := 0, limit := 0, offset := 0, results := [] } := by
  simp [get_favorites, h]

/-- Witness for C10 at a concrete database with no user rows. -/
theorem get_favorites_missing_user_empty_witness :
    user_exists favDb0 "nouser" = false
    ∧ get_favorites favDb0 "nouser"
        = { count := 0, limit := 0, offset := 0, results := [] } :=
  ⟨rfl, get_favorites_missing_user_empty favDb0 "nouser" rfl⟩

theorem schemaFind?_eq_none_of_not_exist {J : Type} {db : List (SchemaRow J)}
    {nsp name : String} (h : schema_exist db nsp name = false) :
    schemaFind? db nsp name = none := by
  cases hfind : schemaFind? db nsp name with
  | none => rfl
  | some s => rw [schema_exist, hfind] at h; simp at h

theorem schemaPred_false_of_not_exist {J : Type} {db : List (SchemaRow J)}
    {nsp name : String} (h : schema_exist db nsp name = false) :
    ∀ x ∈ db, (x.nsp == nsp && x.name == name) = false := by
  intro x hx
  have hn := schemaFind?_eq_none_of_not_exist h
  simp only [schemaFind?] at hn
  exact Bool.eq_false_iff.mpr (List.find?_eq_none.mp hn x hx)

theorem schemaFind?_append_singleton {J : Type} {db : List (SchemaRow J)}
    {nsp name : String} (hn : schemaFind? db nsp name = none) (row : SchemaRow J)
    (hrow : (row.nsp == nsp && row.name == name) = true) :
    schemaFind? (db ++ [row]) nsp name = some row := by
  simp only [schemaFind?] at hn ⊢
  rw [List.find?_append, hn]
  simp [List.find?, hrow]

theorem updateFirst_append {J : Type} {db : List (SchemaRow J)} {nsp name : String}
    (s : J) (d : String) (l : List (SchemaRow J))
    (h : ∀ x ∈ db, (x.nsp == nsp && x.name == name) = false) :
    updateFirst (db ++ l) nsp name s d = db ++ updateFirst l nsp name s d := by
  induction db with
  | nil => simp
  | cons a t ih =>
    have ha := h a (List.mem_cons_self _ _)
    rw [List.cons_append, updateFirst, ha]
    simp only [Bool.false_eq_true, if_false, List.cons_append, List.cons.injEq, true_and]
    exact ih (fun x hx => h x (List.mem_cons_of_mem _ hx))

/-- C7: creating a schema at a fresh key succeeds; creating again at the same
key with `overwrite=False` and `update_only=False` fails with
`SchemaAlreadyExistsError` and the stored first payload is still returned by
`get`; creating again with `overwrite=True` succeeds and a subsequent `get`
returns the second payload. -/
theorem schema_create_twice_overwrite {J : Type}
    (db : List (SchemaRow J)) (nsp name : String) (s1 s2 : J) (d1 d2 : String)
    (h : schema_exist db nsp name = false) :
    ∃ db1, schema_create db nsp name s1 d1 false false = Except.ok db1
      ∧ schema_create db1 nsp name s2 d2 false false
          = Except.error PepError.schemaAlreadyExists
      ∧ schema_get db1 nsp name = Except.ok s1
      ∧ ∃ db2, schema_create db1 nsp name s2 d2 true false = Except.ok db2
          ∧ schema_get db2 nsp name = Except.ok s2 := by
  have hall := schemaPred_false_of_not_exist h
  have hn := schemaFind?_eq_none_of_not_exist h
  have hrow1 : (({ nsp := nsp, name := name, schema_json := s1, description := d1 }
      : SchemaRow J).nsp == nsp
      && ({ nsp := nsp, name := name, schema_json := s1, description := d1 }
      : SchemaRow J).name == name) = true := by simp
  have hfind1 := schemaFind?_append_singleton hn _ hrow1
  have hex1 : schema_exist
      (db ++ [{ nsp := nsp, name := name, schema_json := s1, description := d1 }])
      nsp name = true := by
    rw [schema_exist, hfind1]; rfl
  refine ⟨db ++ [{ nsp := nsp, name := name, schema_json := s1, description := d1 }],
    ?_, ?_, ?_, ?_⟩
  · simp [schema_create, h]
  · simp [schema_create, hex1]
  · rw [schema_get, hfind1]
  · have hupd : updateFirst
        (db ++ [{ nsp := nsp, name := name, schema_json := s1, description := d1 }])
        nsp name s2 d2
        = db ++ [{ nsp := nsp, name := name, schema_json := s2, description := d2 }] := by
      rw [updateFirst_append s2 d2 _ hall, updateFirst, hrow1]
      simp
    have hrow2 : (({ nsp := nsp, name := name, schema_json := s2, description := d2 }
        : SchemaRow J).nsp == nsp
        && ({ nsp := nsp, name := name, schema_json := s2, description := d2 }
        : SchemaRow J).name == name) = true := by simp
    have hfind2 := schemaFind?_append_singleton hn _ hrow2
    refine ⟨db ++ [{ nsp := nsp, name := name, schema_json := s2, description := d2 }],
      ?_, ?_⟩
    · rw [schema_create]
      rw [hex1]
      simp only [if_true, schema_update, hfind1, hupd]
    · rw [schema_get, hfind2]

/-- Witness for C7 on the empty schema table with `Nat` payloads. -/
theorem schema_create_twice_overwrite_witness :
    schema_exist ([] : List (SchemaRow Nat)) "n" "s" = false
    ∧ ∃ db1, schema_create ([] : List (SchemaRow Nat)) "n" "s" 1 "d1" false false
          = Except.ok db1
        ∧ schema_create db1 "n" "s" 2 "d2" false false
            = Except.error PepError.schemaAlreadyExists
        ∧ schema_get db1 "n" "s" = Except.ok 1
        ∧ ∃ db2, schema_create db1 "n" "s" 2 "d2" true false = Except.ok db2
            ∧ schema_get db2 "n" "s" = Except.ok 2 :=
  ⟨rfl, schema_create_twice_overwrite [] "n" "s" 1 2 "d1" "d2" rfl⟩

/-- C5: with a non-empty search string, a row passes the shared text filter of
`_get_projects`/`_count_projects` exactly when the search string matches its
name case-insensitively, or the visible project count that
`get_project_number_in_namespace` reports for the target namespace is below
the fixed threshold 1000 and the string matches its description; and
membership in the shared pre-pagination filter is exactly that text filter
conjoined with the namespace and visibility clauses. -/
theorem search_description_threshold (db : List ProjectRow) (nsp : Option String)
    (q : String) (admin : List String) (r : ProjectRow) (hq : q ≠ "") :
    (projectSearchCond db nsp admin q r = true ↔
      (ilikeContains r.name q = true
        ∨ (get_project_number_in_namespace db nsp admin < 1000
            ∧ descIlike r.description q = true)))
    ∧ (r ∈ projectsFiltered db nsp (some q) admin ↔
        (r ∈ db ∧ projectSearchCond db nsp admin q r = true
          ∧ nsApplied nsp r = true ∧ visibleP admin r = true)) := by
  have hq' : (q == "") = false := by
    simpa using hq
  constructor
  · by_cases hlt : get_project_number_in_namespace db nsp admin < 1000
    · simp [projectSearchCond, hlt]
    · simp [projectSearchCond, hlt]
  · rw [projectsFiltered, List.mem_filter]
    simp [searchApplied, hq', and_assoc]

/-- Witness for C5: a concrete row matched only through its description, in a
namespace whose visible count is below the threshold. -/
theorem search_description_threshold_witness :
    rowAB ∈ projectsFiltered [rowAB] none (some "DEMO") [] :=
  ((search_description_threshold [rowAB] none "DEMO" [] rowAB (by decide)).2).mpr
    (by refine ⟨List.mem_singleton.mpr rfl, by decide, by decide, by decide⟩)

theorem user_id_lt_fresh {db : FavDB} {u : UserRow} (hu : u ∈ db.users) :
    u.id < freshUserId db := by
  have hle : u.id ≤ (db.users.map (fun v => v.id)).foldr Nat.max 0 :=
    le_foldr_max (List.mem_map_of_mem _ hu)
  rw [freshUserId]
  omega

/-- C9: with the target project existing and the favorites table respecting
its user foreign key, unfavoriting while no favorites row matches the
resolved user and project raises `ProjectNotInFavorites`; and for a namespace
with no user record yet, favoriting (which creates the user record) and then
unfavoriting succeeds and leaves the user's favorites list empty. -/
theorem favorites_add_remove_roundtrip (db : FavDB) (nsp p_nsp p_name p_tag : String)
    (pid : Nat)
    (hp : get_project_id db p_nsp p_name p_tag = some pid)
    (hwf : ∀ f ∈ db.favorites, ∃ u ∈ db.users, f.1 = u.id) :
    (db.favorites.countP (favMatch (get_user_id db nsp) (some pid)) = 0 →
      remove_from_favorites db nsp p_nsp p_name p_tag
        = Except.error PepError.projectNotInFavorites)
    ∧ (get_user_id db nsp = none →
        ∃ db1 db2, add_to_favorites db nsp p_nsp p_name p_tag = Except.ok db1
          ∧ remove_from_favorites db1 nsp p_nsp p_name p_tag = Except.ok db2
          ∧ get_favorites db2 nsp
              = { count := 0, limit := 0, offset := 0, results := [] }) := by
  constructor
  · intro h0
    simp [remove_from_favorites, hp, h0]
  · intro hu
    have hfn : db.users.find? (fun u => u.nsp == nsp) = none :=
      Option.map_eq_none'.mp hu
    have hfresh : ∀ f ∈ db.favorites, f.1 ≠ freshUserId db := by
      intro f hf h1
      rcases hwf f hf with ⟨u, humem, hid⟩
      exact absurd (hid ▸ h1) (Nat.ne_of_lt (user_id_lt_fresh humem))
    refine ⟨{ db with users := db.users ++ [{ id := freshUserId db, nsp := nsp }], favorites := db.favorites ++ [(freshUserId db, pid)] }, { db with users := db.users ++ [{ id := freshUserId db, nsp := nsp }] }, ?_, ?_, ?_⟩
    · simp [add_to_favorites, hp, hu, create_user]
    · have hp1 : get_project_id { db with users := db.users ++ [{ id := freshUserId db, nsp := nsp }], favorites := db.favorites ++ [(freshUserId db, pid)] } p_nsp p_name p_tag = some pid := hp
      have hu1 : get_user_id { db with users := db.users ++ [{ id := freshUserId db, nsp := nsp }], favorites := db.favorites ++ [(freshUserId db, pid)] } nsp = some (freshUserId db) := by
        simp only [get_user_id, List.find?_append, hfn, Option.none_or]
        simp [List.find?]
      have hzero : db.favorites.countP (favMatch (some (freshUserId db)) (some pid)) = 0 := by
        refine List.countP_eq_zero.mpr ?_
        intro f hf hmatch
        simp only [favMatch, Bool.and_eq_true, beq_iff_eq] at hmatch
        exact hfresh f hf hmatch.1
      have hkeep : db.favorites.filter
          (fun f => !favMatch (some (freshUserId db)) (some pid) f) = db.favorites := by
        refine List.filter_eq_self.mpr ?_
        intro f hf
        simp only [Bool.not_eq_true']
        refine Bool.eq_false_iff.mpr ?_
        intro hmatch
        simp only [favMatch, Bool.and_eq_true, beq_iff_eq] at hmatch
        exact hfresh f hf hmatch.1
      rw [remove_from_favorites]
      simp only [hp1, hu1, List.countP_append, hzero]
      simp [favMatch, List.filter_append, hkeep]
      intro a b hab
      exact Or.inl (hfresh (a, b) hab)
    · have hfn2 : (db.users ++ [({ id := freshUserId db, nsp := nsp } : UserRow)]).find?
          (fun u => u.nsp == nsp) = some { id := freshUserId db, nsp := nsp } := by
        rw [List.find?_append, hfn]
        simp [List.find?]
      have hexists2 : user_exists { db with users := db.users ++ [{ id := freshUserId db, nsp := nsp }] } nsp = true := by
        simp [user_exists, List.filter_append]
      have hnil : db.favorites.filter (fun f => f.1 == freshUserId db) = [] := by
        refine List.filter_eq_nil_iff.mpr ?_
        intro f hf
        simp only [ne_eq, beq_iff_eq]
        exact hfresh f hf
      rw [get_favorites]
      rw [hexists2]
      simp only [if_true]
      rw [hfn2]
      simp [hnil]

/-- Witness for C9 on a concrete database: one project `a/b:t` (id 1), no
users, no favorites. -/
theorem favorites_add_remove_roundtrip_witness :
    remove_from_favorites favDb0 "u" "a" "b" "t"
      = Except.error PepError.projectNotInFavorites
    ∧ ∃ db1 db2, add_to_favorites favDb0 "u" "a" "b" "t" = Except.ok db1
        ∧ remove_from_favorites db1 "u" "a" "b" "t" = Except.ok db2
        ∧ get_favorites db2 "u" = { count := 0, limit := 0, offset := 0, results := [] } :=
  ⟨(favorites_add_remove_roundtrip favDb0 "u" "a" "b" "t" 1 (by decide)
      (by intro f hf; cases hf)).1 (by decide),
   (favorites_add_remove_roundtrip favDb0 "u" "a" "b" "t" 1 (by decide)
      (by intro f hf; cases hf)).2 (by decide)⟩

theorem filter_replicate_append_pos {A : Type} (p : A → Bool) (n : Nat) (a b : A)
    (ha : p a = false) (hb : p b = true) :
    List.filter p (List.replicate n a ++ [b]) = [b] := by
  rw [List.filter_append, List.filter_replicate, ha]
  simp [List.filter, hb]

theorem filter_replicate_append_neg {A : Type} (p : A → Bool) (n : Nat) (a b : A)
    (ha : p a = false) (hb : p b = false) :
    List.filter p (List.replicate n a ++ [b]) = [] := by
  rw [List.filter_append, List.filter_replicate, ha]
  simp [List.filter, hb]

/-- C1 counterexample: a public project (`is_private = false`) is not always
returned regardless of the caller's admin set.  In a namespace with 1000
private projects and one public project whose description (but not name)
matches the query, the visible project count seen by
`get_project_number_in_namespace` is 1 for an empty admin set (below the
description-search threshold, so the public row matches and is returned) but
1001 once the namespace is in the admin set (at the threshold, so the
description clause is dropped and the public row disappears from the
results even though its privacy flag and the pagination window are
unchanged). -/
theorem public_row_visibility_admin_dependent :
    pubN.is_private = false
    ∧ rowToAnnot pubN ∈ get_projects bigDb (some "n") (some "hello") [] 10 0
    ∧ rowToAnnot pubN ∉ get_projects bigDb (some "n") (some "hello") ["n"] 10 0 := by
  have hc1 : get_project_number_in_namespace (List.replicate 1000 privN ++ [pubN])
      (some "n") [] = 1 := by
    rw [get_project_number_in_namespace, List.countP_append, List.countP_replicate]
    decide
  have hc2 : get_project_number_in_namespace (List.replicate 1000 privN ++ [pubN])
      (some "n") ["n"] = 1001 := by
    rw [get_project_number_in_namespace, List.countP_append, List.countP_replicate]
    decide
  have hsp1 : searchApplied (List.replicate 1000 privN ++ [pubN]) (some "n") []
      (some "hello") pubN = true := by
    show projectSearchCond (List.replicate 1000 privN ++ [pubN]) (some "n") [] "hello" pubN
      = true
    unfold projectSearchCond
    rw [hc1]
    decide
  have hsp2priv : searchApplied (List.replicate 1000 privN ++ [pubN]) (some "n") ["n"]
      (some "hello") privN = false := by
    show projectSearchCond (List.replicate 1000 privN ++ [pubN]) (some "n") ["n"] "hello" privN
      = false
    unfold projectSearchCond
    rw [hc2]
    decide
  have hsp2pub : searchApplied (List.replicate 1000 privN ++ [pubN]) (some "n") ["n"]
      (some "hello") pubN = false := by
    show projectSearchCond (List.replicate 1000 privN ++ [pubN]) (some "n") ["n"] "hello" pubN
      = false
    unfold projectSearchCond
    rw [hc2]
    decide
  have hf1 : projectsFiltered bigDb (some "n") (some "hello") [] = [pubN] := by
    rw [projectsFiltered, bigDb]
    refine filter_replicate_append_pos _ 1000 privN pubN ?_ ?_
    · rw [show visibleP [] privN = false from by decide]
      simp only [Bool.and_false]
    · rw [hsp1, show nsApplied (some "n") pubN = true from by decide,
        show visibleP [] pubN = true from by decide]
      rfl
  have hf2 : projectsFiltered bigDb (some "n") (some "hello") ["n"] = [] := by
    rw [projectsFiltered, bigDb]
    refine filter_replicate_append_neg _ 1000 privN pubN ?_ ?_
    · rw [hsp2priv]
      simp only [Bool.false_and]
    · rw [hsp2pub]
      simp only [Bool.false_and]
  refine ⟨by decide, ?_, ?_⟩
  · simp only [get_projects, hf1]
    decide
  · simp only [get_projects, hf2]
    decide

/-- C1 amended: every project row returned by `_get_projects` satisfies the
visibility predicate (a private project outside the admin set is never
returned); membership in the shared pre-pagination filter is exactly the
conjunction of the search condition, the namespace condition and
`is_private = false ∨ namespace ∈ admin`; and every namespace aggregate
returned by `_get_namespace` is witnessed by a row passing the same
visibility predicate.  (The claim's further assertion that a public project
is returned regardless of the admin set fails: the search condition itself
depends on the admin set through the description-search threshold.) -/
theorem visibility_filter_policy (db : List ProjectRow) (nsp q : Option String)
    (q2 : String) (admin : List String) (lim off lim2 off2 : Nat) :
    (∀ a ∈ get_projects db nsp q admin lim off, a.is_private = false ∨ a.nsp ∈ admin)
    ∧ (∀ r, r ∈ projectsFiltered db nsp q admin ↔
        (r ∈ db ∧ searchApplied db nsp admin q r = true ∧ nsApplied nsp r = true
          ∧ (r.is_private = false ∨ r.nsp ∈ admin)))
    ∧ (∀ nm ∈ get_namespace db q2 admin lim2 off2,
        ∃ r, r ∈ db ∧ r.nsp = nm.nsp ∧ (r.is_private = false ∨ r.nsp ∈ admin)) := by
  have hvis : ∀ r : ProjectRow, visibleP admin r = true ↔
      (r.is_private = false ∨ r.nsp ∈ admin) := by
    intro r
    simp [visibleP]
  have hmain : ∀ r, r ∈ projectsFiltered db nsp q admin ↔
      (r ∈ db ∧ searchApplied db nsp admin q r = true ∧ nsApplied nsp r = true
        ∧ (r.is_private = false ∨ r.nsp ∈ admin)) := by
    intro r
    rw [projectsFiltered, List.mem_filter]
    simp [hvis r, and_assoc]
  refine ⟨?_, hmain, ?_⟩
  · intro a ha
    simp only [get_projects, List.mem_map] at ha
    obtain ⟨r, hr, rfl⟩ := ha
    have hr2 : r ∈ projectsFiltered db nsp q admin :=
      List.mem_of_mem_drop (List.mem_of_mem_take hr)
    have := ((hmain r).mp hr2).2.2.2
    simpa [rowToAnnot] using this
  · intro nm hnm
    simp only [get_namespace] at hnm
    have hnm2 := List.mem_of_mem_drop (List.mem_of_mem_take hnm)
    rw [List.mem_map] at hnm2
    obtain ⟨k, hk, hfk⟩ := hnm2
    have hk2 : k ∈ (db.filter (nsRowFilter q2 admin)).map (fun r => r.nsp) :=
      mem_distinctKeys hk
    rw [List.mem_map] at hk2
    obtain ⟨r, hr, hrk⟩ := hk2
    have hr2 := List.mem_filter.mp hr
    have hcond := hr2.2
    simp only [nsRowFilter, Bool.and_eq_true] at hcond
    have hvisr : (r.is_private == false || admin.contains r.nsp) = true := hcond.2
    refine ⟨r, hr2.1, ?_, ?_⟩
    · rw [hrk, ← hfk]
    · simpa using hvisr

/-- Witness for C1 (amended) at a concrete one-row database. -/
theorem visibility_filter_policy_witness :
    rowAB ∈ projectsFiltered [rowAB] none none [] :=
  ((visibility_filter_policy [rowAB] none none "" [] 1 0 1 0).2.1 rowAB).mpr (by decide)

end PepDb
